import Mathlib

/-!
Shallow embedding of the two games in dan1lka257/small_games:
`src/treasure_hunter/treasure_hunter.cpp` (namespace `TH`) and
`src/space_defender/space_defender.cpp` (namespace `SD`).

Terminal I/O, ANSI rendering and the OS entropy source are external
collaborators; the random streams consumed by the spawn code are passed
in explicitly (`draws : Nat → Int × Int`), and the keyboard is passed as
a `Char`. Everything else is translated line by line from the C++.
-/

namespace TH

/-- EventType from treasure_hunter.cpp lines 9-12. -/
inductive EventType where
  | TreasureCollected
  | TrapTriggered
deriving DecidableEq

/-- GameManager state from treasure_hunter.cpp lines 37-45:
score, gameOver, level, treasuresToWin. -/
structure GameManager where
  score : Int
  gameOver : Bool
  level : Int
  treasuresToWin : Int
deriving DecidableEq

/-- GameManager constructor / init (lines 45 and 58-63): score 0,
gameOver false, level 1, treasuresToWin 3. -/
def GameManager.init : GameManager :=
  { score := 0, gameOver := false, level := 1, treasuresToWin := 3 }

/-- GameManager::levelUp (lines 77-81): level++, treasuresToWin += 2, score = 0. -/
def GameManager.levelUp (g : GameManager) : GameManager :=
  { g with level := g.level + 1, treasuresToWin := g.treasuresToWin + 2, score := 0 }

/-- GameManager::addScore (lines 70-75): score += points, then levelUp
when score >= treasuresToWin. -/
def GameManager.addScore (g : GameManager) (points : Int) : GameManager :=
  let g2 := { g with score := g.score + points }
  if g2.score ≥ g2.treasuresToWin then g2.levelUp else g2

/-- GameManager::endGame (lines 83-85). -/
def GameManager.endGame (g : GameManager) : GameManager :=
  { g with gameOver := true }

/-- GameManager::onNotify (lines 87-96): TreasureCollected adds 1 point,
TrapTriggered ends the game. -/
def GameManager.onNotify (g : GameManager) (e : EventType) : GameManager :=
  match e with
  | EventType.TreasureCollected => g.addScore 1
  | EventType.TrapTriggered => g.endGame

/-- GameObject (lines 102-117): position, symbol, active flag. -/
structure GameObj where
  x : Int
  y : Int
  symbol : Char
  active : Bool
deriving DecidableEq

/-- Player (lines 155-171): a GameObject with symbol @ plus the field
bounds used by move. -/
structure Player where
  x : Int
  y : Int
  symbol : Char
  active : Bool
  fieldWidth : Int
  fieldHeight : Int
deriving DecidableEq

/-- Player constructor (line 160): starts at (width/2, height/2). -/
def playerMk (width height : Int) : Player :=
  { x := width / 2, y := height / 2, symbol := '@', active := true,
    fieldWidth := width, fieldHeight := height }

/-- Player::move (lines 162-170): the step is applied only when the new
position is inside [0, fieldWidth) x [0, fieldHeight). -/
def Player.move (p : Player) (dx dy : Int) : Player :=
  let newX := p.x + dx
  let newY := p.y + dy
  if 0 ≤ newX ∧ newX < p.fieldWidth ∧ 0 ≤ newY ∧ newY < p.fieldHeight then
    { p with x := newX, y := newY }
  else p

/-- GameField (lines 174-178): width, height and the object store. -/
structure GameField where
  width : Int
  height : Int
  objects : List GameObj
deriving DecidableEq

/-- GameField::getObjectAt (lines 200-207): first active object at (x, y). -/
def getObjectAt (f : GameField) (x y : Int) : Option GameObj :=
  f.objects.find? (fun o => o.active && (o.x == x && o.y == y))

/-- Helper for GameField::removeObject: deactivate the first occurrence
of the given object in the list (pointer identity in the C++ becomes
identity of the first structurally equal element). -/
def deactivateFirst : List GameObj → GameObj → List GameObj
  | [], _ => []
  | a :: rest, o =>
    if a = o then { a with active := false } :: rest
    else a :: deactivateFirst rest o

/-- GameField::removeObject (lines 209-216). -/
def removeObject (f : GameField) (o : GameObj) : GameField :=
  { f with objects := deactivateFirst f.objects o }

/-- The do-while loop of GameField::addTrap (lines 224-230), with the
random draws passed in as a stream. The C++ loop continues while the
drawn cell is occupied and attempts + 1 < 50 after the increment; here
the remaining iteration budget is the structural argument fuel with the
invariant fuel = 49 - attempts, so the top-level call uses attempts = 0
and fuel = 49. Returns the last drawn cell and the final attempts count. -/
def addTrapLoop (f : GameField) (draws : Nat → Int × Int) :
    Nat → Nat → (Int × Int) × Nat
  | attempts, 0 => (draws attempts, attempts + 1)
  | attempts, fuel + 1 =>
    if (getObjectAt f (draws attempts).1 (draws attempts).2).isSome then
      addTrapLoop f draws (attempts + 1) fuel
    else (draws attempts, attempts + 1)

/-- GameField::addTrap (lines 218-235): run the rejection-sampling loop,
then push a new trap X only when attempts < 50. -/
def addTrap (f : GameField) (draws : Nat → Int × Int) : GameField :=
  let r := addTrapLoop f draws 0 49
  if r.2 < 50 then
    { f with objects := f.objects ++ [{ x := r.1.1, y := r.1.2, symbol := 'X', active := true }] }
  else f

/-- One cell of GameField::draw (lines 244-263): the player glyph first,
else the symbol of the first active object at the cell, else a dot. -/
def drawCell (f : GameField) (playerX playerY x y : Int) : Char :=
  if x = playerX ∧ y = playerY then '@'
  else
    match f.objects.find? (fun o => o.active && (o.x == x && o.y == y)) with
    | some o => o.symbol
    | none => '.'

/-- Result of the input switch in main (lines 315-322): the mutated
player and manager, whether the rest of the tick is skipped (continue),
and whether the invalid-command message was printed. -/
structure InputResult where
  player : Player
  manager : GameManager
  skipTick : Bool
  invalidMsg : Bool
deriving DecidableEq

/-- The input switch in main (lines 315-322). Each movement case falls
through to the collision code; q ends the game and continues; any other
key prints the invalid-command message and continues. -/
def inputStep (p : Player) (g : GameManager) (key : Char) : InputResult :=
  if key = 'w' ∨ key = 'W' then ⟨p.move 0 (-1), g, false, false⟩
  else if key = 's' ∨ key = 'S' then ⟨p.move 0 1, g, false, false⟩
  else if key = 'a' ∨ key = 'A' then ⟨p.move (-1) 0, g, false, false⟩
  else if key = 'd' ∨ key = 'D' then ⟨p.move 1 0, g, false, false⟩
  else if key = 'q' ∨ key = 'Q' then ⟨p, g.endGame, true, false⟩
  else ⟨p, g, true, true⟩

/-- Whole game state of treasure hunter. -/
structure State where
  manager : GameManager
  player : Player
  field : GameField
deriving DecidableEq

/-- One iteration of the main loop body after rendering (lines 313-335):
input dispatch, then (unless the switch continued) the collision check at
the player cell; a treasure notifies TreasureCollected, is removed and a
new trap is spawned; a trap notifies TrapTriggered. The C++ notifies
before removing the treasure; the manager update and the field update
commute, so they are applied in either order. -/
def tick (s : State) (key : Char) (draws : Nat → Int × Int) : State :=
  let r := inputStep s.player s.manager key
  if r.skipTick then ⟨r.manager, r.player, s.field⟩
  else
    match getObjectAt s.field r.player.x r.player.y with
    | some o =>
      if o.symbol = 'T' then
        ⟨r.manager.onNotify EventType.TreasureCollected, r.player,
          addTrap (removeObject s.field o) draws⟩
      else if o.symbol = 'X' then
        ⟨r.manager.onNotify EventType.TrapTriggered, r.player, s.field⟩
      else ⟨r.manager, r.player, s.field⟩
    | none => ⟨r.manager, r.player, s.field⟩

end TH

namespace SD

/-- EventType from space_defender.cpp lines 65-68. -/
inductive EventType where
  | EnemyHit
  | PlayerHit
deriving DecidableEq

/-- GameManager state from space_defender.cpp lines 119-126: score,
gameOver, screenWidth 80, screenHeight 24. -/
structure GameManager where
  score : Int
  gameOver : Bool
  screenWidth : Int
  screenHeight : Int
deriving DecidableEq

/-- GameManager constructor and init (lines 126 and 139-144). -/
def GameManager.init : GameManager :=
  { score := 0, gameOver := false, screenWidth := 80, screenHeight := 24 }

/-- GameManager::addScore (lines 155-157). -/
def GameManager.addScore (g : GameManager) (points : Int) : GameManager :=
  { g with score := g.score + points }

/-- GameManager::endGame (lines 159-161). -/
def GameManager.endGame (g : GameManager) : GameManager :=
  { g with gameOver := true }

/-- GameManager::onNotify (lines 163-172): EnemyHit adds 10 points,
PlayerHit ends the game. -/
def GameManager.onNotify (g : GameManager) (e : EventType) : GameManager :=
  match e with
  | EventType.EnemyHit => g.addScore 10
  | EventType.PlayerHit => g.endGame

/-- The two enemy classes produced by EnemyFactory (lines 206-230). -/
inductive EnemyKind where
  | Fast
  | Tough
deriving DecidableEq

/-- An Enemy (lines 190-230): GameObject fields plus the speed set by the
constructor and, for ToughEnemy, the health counter. FastEnemy has no
health member in the C++ and never reads it; the field is fixed at 0
for that kind. -/
structure Enemy where
  kind : EnemyKind
  x : Int
  y : Int
  symbol : Char
  active : Bool
  health : Int
  speed : Int
deriving DecidableEq

/-- FastEnemy constructor (line 208): Enemy(x, 3, F, 2). -/
def FastEnemy (x : Int) : Enemy :=
  { kind := EnemyKind.Fast, x := x, y := 3, symbol := 'F', active := true,
    health := 0, speed := 2 }

/-- ToughEnemy constructor (line 216): Enemy(x, 3, T, 1) with health 2. -/
def ToughEnemy (x : Int) : Enemy :=
  { kind := EnemyKind.Tough, x := x, y := 3, symbol := 'T', active := true,
    health := 2, speed := 1 }

/-- Virtual dispatch of setActive on an enemy. GameObject::setActive
(line 108, virtual) just writes the flag, and that is what a FastEnemy
runs. ToughEnemy::setActive (lines 219-229) overrides it: on
setActive(false) it decrements health and only when health <= 0 does it
deactivate and notify EnemyHit. The raised events are returned for the
caller to feed to the manager, matching the synchronous notify. -/
def Enemy.setActive (e : Enemy) (act : Bool) : Enemy × List EventType :=
  match e.kind with
  | EnemyKind.Fast => ({ e with active := act }, [])
  | EnemyKind.Tough =>
    if act then ({ e with active := true }, [])
    else
      let health := e.health - 1
      if health ≤ 0 then
        ({ e with health := health, active := false }, [EventType.EnemyHit])
      else ({ e with health := health }, [])

/-- Enemy::update (lines 197-203): inactive enemies do nothing; otherwise
y += speed and the enemy deactivates below the screen. -/
def Enemy.update (e : Enemy) (screenHeight : Int) : Enemy :=
  if e.active then
    let y := e.y + e.speed
    if y > screenHeight then { e with y := y, active := false }
    else { e with y := y }
  else e

/-- GameObject::draw (lines 111-115) for an enemy: a glyph is emitted at
(x, y) only when the object is active. -/
def Enemy.draw (e : Enemy) : Option ((Int × Int) × Char) :=
  if e.active then some ((e.x, e.y), e.symbol) else none

/-- A Bullet (lines 263-274): GameObject with symbol |. -/
structure Bullet where
  x : Int
  y : Int
  symbol : Char
  active : Bool
deriving DecidableEq

/-- Bullet::update (lines 267-273): inactive bullets do nothing;
otherwise y-- and the bullet deactivates at y <= 1. -/
def Bullet.update (b : Bullet) : Bullet :=
  if b.active then
    let y := b.y - 1
    if y ≤ 1 then { b with y := y, active := false }
    else { b with y := y }
  else b

/-- GameObject::draw for a bullet. -/
def Bullet.draw (b : Bullet) : Option ((Int × Int) × Char) :=
  if b.active then some ((b.x, b.y), b.symbol) else none

/-- Player (lines 276-327): GameObject fields plus the owned bullets and
the fire cooldown. -/
structure Player where
  x : Int
  y : Int
  symbol : Char
  active : Bool
  bullets : List Bullet
  fireCooldown : Int
deriving DecidableEq

/-- Player constructor (line 282): GameObject(40, 20, A), cooldown 0. -/
def playerInit : Player :=
  { x := 40, y := 20, symbol := 'A', active := true, bullets := [], fireCooldown := 0 }

/-- Player::moveLeft (lines 307-309): step left only while x > 1. -/
def Player.moveLeft (p : Player) : Player :=
  if p.x > 1 then { p with x := p.x - 1 } else p

/-- Player::moveRight (lines 311-313): step right only while
x < screenWidth - 2; the screen width comes from the manager singleton
and is passed explicitly here. -/
def Player.moveRight (p : Player) (screenWidth : Int) : Player :=
  if p.x < screenWidth - 2 then { p with x := p.x + 1 } else p

/-- Player::fire (lines 315-320): when the cooldown is 0, append a bullet
at (x, y - 1) and set the cooldown to 5. -/
def Player.fire (p : Player) : Player :=
  if p.fireCooldown = 0 then
    { p with bullets := p.bullets ++ [{ x := p.x, y := p.y - 1, symbol := '|', active := true }],
             fireCooldown := 5 }
  else p

/-- Player::update (lines 284-298): decrement a positive cooldown, update
every bullet, then erase the inactive bullets. -/
def Player.update (p : Player) : Player :=
  let cd := if p.fireCooldown > 0 then p.fireCooldown - 1 else p.fireCooldown
  { p with fireCooldown := cd,
           bullets := (p.bullets.map Bullet.update).filter (fun b => b.active) }

/-- Player::checkCollision (lines 324-326): both objects active and at
equal coordinates. -/
def checkCollision (p : Player) (e : Enemy) : Bool :=
  p.active && e.active && p.x == e.x && p.y == e.y

/-- The input switch in main (lines 352-360): only the lowercase letters
a, d, f, q are cases, and there is no default case. -/
def inputStep (p : Player) (g : GameManager) (key : Char) : Player × GameManager :=
  if key = 'a' then (p.moveLeft, g)
  else if key = 'd' then (p.moveRight g.screenWidth, g)
  else if key = 'f' then (p.fire, g)
  else if key = 'q' then (p, g.endGame)
  else (p, g)

/-- The body of the inner bullet loop in main (lines 370-376): when the
enemy and the bullet are both active on the same cell, the bullet is
deactivated by the plain GameObject::setActive and the enemy by its
virtual setActive, whose events go to the manager synchronously. -/
def collideBulletEnemy (b : Bullet) (e : Enemy) (g : GameManager) :
    Bullet × Enemy × GameManager :=
  if e.active && b.active && (e.x == b.x && e.y == b.y) then
    let s := e.setActive false
    ({ b with active := false }, s.1, s.2.foldl GameManager.onNotify g)
  else (b, e, g)

/-- The body of the outer enemy loop in main (lines 369-381): fold the
bullet collisions over the bullets of the player in storage order, then
check the player-enemy collision and notify PlayerHit. -/
def collideEnemy (p : Player) (e : Enemy) (g : GameManager) :
    Player × Enemy × GameManager :=
  let r := p.bullets.foldl
    (fun acc b =>
      let s := collideBulletEnemy b acc.2.1 acc.2.2
      (acc.1 ++ [s.1], s.2.1, s.2.2))
    (([] : List Bullet), e, g)
  let p2 : Player := { p with bullets := r.1 }
  if checkCollision p2 r.2.1 then (p2, r.2.1, r.2.2.onNotify EventType.PlayerHit)
  else (p2, r.2.1, r.2.2)

/-- The whole collision phase of main (lines 368-381), enemies in storage
order. -/
def collideAll (p : Player) (enemies : List Enemy) (g : GameManager) :
    Player × List Enemy × GameManager :=
  enemies.foldl
    (fun acc e =>
      let r := collideEnemy acc.1 e acc.2.2
      (r.1, acc.2.1 ++ [r.2.1], r.2.2))
    (p, ([] : List Enemy), g)

/-- Whole game state of space defender. -/
structure State where
  player : Player
  enemies : List Enemy
  manager : GameManager
deriving DecidableEq

/-- One iteration of the main loop (lines 341-398) without the wall-clock
enemy spawn and the rendering: optional input dispatch, player update,
enemy updates, collision phase, then erasure of inactive enemies. -/
def tick (s : State) (key : Option Char) : State :=
  let pg := match key with
    | some k => inputStep s.player s.manager k
    | none => (s.player, s.manager)
  let p := pg.1.update
  let enemies := s.enemies.map (fun e => e.update pg.2.screenHeight)
  let r := collideAll p enemies pg.2
  ⟨r.1, r.2.1.filter (fun e => e.active), r.2.2⟩

/-- Repeated guarded hits on one enemy: each round applies
setActive(false) only when the enemy is still active, exactly as the
collision loop in main does (the check enemy->active() at line 371),
collecting the raised events. -/
def hitsFrom (e : Enemy) : Nat → Enemy × List EventType
  | 0 => (e, [])
  | n + 1 =>
    let r := hitsFrom e n
    if r.1.active then
      let s := r.1.setActive false
      (s.1, r.2 ++ s.2)
    else r

end SD

/-- C2: in treasure hunter, for every state in which the game is not over
(and the running-game invariant score < treasuresToWin holds),
TreasureCollected adds exactly 1 to the score; when the new score reaches
the win-threshold the level rises by 1, the threshold rises by the fixed
increment 2 and the score resets to 0, and otherwise only the score
changes; from the initial state (level 1, threshold 3) three collected
treasures give level 2, threshold 5, score 0. -/
theorem treasure_collect_scoring (g : TH.GameManager)
    (hgo : g.gameOver = false) (hlt : g.score < g.treasuresToWin) :
    (g.score + 1 = g.treasuresToWin →
      g.onNotify TH.EventType.TreasureCollected =
        { g with score := 0, level := g.level + 1,
                 treasuresToWin := g.treasuresToWin + 2 }) ∧
    (g.score + 1 ≠ g.treasuresToWin →
      g.onNotify TH.EventType.TreasureCollected = { g with score := g.score + 1 }) ∧
    ((TH.GameManager.init.onNotify TH.EventType.TreasureCollected).onNotify
        TH.EventType.TreasureCollected).onNotify TH.EventType.TreasureCollected =
      { score := 0, gameOver := false, level := 2, treasuresToWin := 5 } := by
  obtain ⟨s, go, lv, tw⟩ := g
  simp only [TH.GameManager.gameOver] at hgo
  simp only [TH.GameManager.score, TH.GameManager.treasuresToWin] at hlt
  refine ⟨?_, ?_, by decide⟩
  · intro h
    simp only [TH.GameManager.score, TH.GameManager.treasuresToWin] at h
    simp only [TH.GameManager.onNotify, TH.GameManager.addScore, TH.GameManager.levelUp]
    split_ifs with hc
    · rfl
    · exfalso
      simp only [TH.GameManager.score, TH.GameManager.treasuresToWin] at hc
      omega
  · intro h
    simp only [TH.GameManager.score, TH.GameManager.treasuresToWin] at h
    simp only [TH.GameManager.onNotify, TH.GameManager.addScore, TH.GameManager.levelUp]
    split_ifs with hc
    · exfalso
      simp only [TH.GameManager.score, TH.GameManager.treasuresToWin] at hc
      omega
    · rfl

/-- Witness for treasure_collect_scoring at the initial state. -/
theorem treasure_collect_scoring_witness :
    TH.GameManager.init.onNotify TH.EventType.TreasureCollected =
      { TH.GameManager.init with score := TH.GameManager.init.score + 1 } :=
  (treasure_collect_scoring TH.GameManager.init (by decide) (by decide)).2.1 (by decide)

/-- C9: in both games, TrapTriggered (treasure hunter) and PlayerHit
(space defender) set the game-over flag unconditionally, and once the
flag is true no event delivered to either manager can make it false. -/
theorem gameover_terminal (g1 g2 : TH.GameManager) (m1 m2 : SD.GameManager)
    (e : TH.EventType) (v : SD.EventType)
    (hg : g2.gameOver = true) (hm : m2.gameOver = true) :
    (g1.onNotify TH.EventType.TrapTriggered).gameOver = true ∧
    (m1.onNotify SD.EventType.PlayerHit).gameOver = true ∧
    (g2.onNotify e).gameOver = true ∧
    (m2.onNotify v).gameOver = true := by
  refine ⟨rfl, rfl, ?_, ?_⟩
  · cases e with
    | TreasureCollected =>
      obtain ⟨s, go, lv, tw⟩ := g2
      simp only [TH.GameManager.onNotify, TH.GameManager.addScore, TH.GameManager.levelUp]
      split_ifs <;> simpa using hg
    | TrapTriggered => rfl
  · cases v with
    | EnemyHit =>
      obtain ⟨s, go, w, h⟩ := m2
      simpa [SD.GameManager.onNotify, SD.GameManager.addScore] using hm
    | PlayerHit => rfl

/-- Witness for gameover_terminal on concrete game-over states. -/
theorem gameover_terminal_witness :
    ((TH.GameManager.init.onNotify TH.EventType.TrapTriggered).onNotify
      TH.EventType.TreasureCollected).gameOver = true ∧
    ((SD.GameManager.init.onNotify SD.EventType.PlayerHit).onNotify
      SD.EventType.EnemyHit).gameOver = true :=
  ⟨(gameover_terminal TH.GameManager.init
      (TH.GameManager.init.onNotify TH.EventType.TrapTriggered)
      SD.GameManager.init (SD.GameManager.init.onNotify SD.EventType.PlayerHit)
      TH.EventType.TreasureCollected SD.EventType.EnemyHit
      (by decide) (by decide)).2.2.1,
   (gameover_terminal TH.GameManager.init
      (TH.GameManager.init.onNotify TH.EventType.TrapTriggered)
      SD.GameManager.init (SD.GameManager.init.onNotify SD.EventType.PlayerHit)
      TH.EventType.TreasureCollected SD.EventType.EnemyHit
      (by decide) (by decide)).2.2.2⟩

/-- C7: a player inside the configured bounds stays inside after every
move command (treasure hunter: 0 <= x < fieldWidth, 0 <= y < fieldHeight;
space defender: 1 <= x <= screenWidth - 2), and a move whose target is
outside leaves the position unchanged. -/
theorem move_within_bounds (p : TH.Player) (dx dy : Int)
    (hx : 0 ≤ p.x ∧ p.x < p.fieldWidth) (hy : 0 ≤ p.y ∧ p.y < p.fieldHeight)
    (q : SD.Player) (w : Int) (hq : 1 ≤ q.x ∧ q.x ≤ w - 2) :
    (0 ≤ (p.move dx dy).x ∧ (p.move dx dy).x < p.fieldWidth ∧
      0 ≤ (p.move dx dy).y ∧ (p.move dx dy).y < p.fieldHeight) ∧
    (¬ (0 ≤ p.x + dx ∧ p.x + dx < p.fieldWidth ∧
        0 ≤ p.y + dy ∧ p.y + dy < p.fieldHeight) →
      p.move dx dy = p) ∧
    (1 ≤ q.moveLeft.x ∧ q.moveLeft.x ≤ w - 2) ∧
    (1 ≤ (q.moveRight w).x ∧ (q.moveRight w).x ≤ w - 2) ∧
    (q.x = 1 → q.moveLeft = q) ∧
    (q.x = w - 2 → q.moveRight w = q) := by
  refine ⟨?_, ?_, ?_, ?_, ?_, ?_⟩
  · simp only [TH.Player.move]
    split_ifs with h
    · simp only []
      exact ⟨h.1, h.2.1, h.2.2.1, h.2.2.2⟩
    · exact ⟨hx.1, hx.2, hy.1, hy.2⟩
  · intro hn
    simp only [TH.Player.move]
    rw [if_neg hn]
  · simp only [SD.Player.moveLeft]
    split_ifs with h
    · exact ⟨by simp; omega, by simp; omega⟩
    · exact hq
  · simp only [SD.Player.moveRight]
    split_ifs with h
    · exact ⟨by simp; omega, by simp; omega⟩
    · exact hq
  · intro h1
    simp only [SD.Player.moveLeft]
    rw [if_neg (by omega)]
  · intro h1
    simp only [SD.Player.moveRight]
    rw [if_neg (by omega)]

/-- Witness for move_within_bounds at the two initial players. -/
theorem move_within_bounds_witness :
    (0 ≤ ((TH.playerMk 10 6).move 1 0).x ∧
      ((TH.playerMk 10 6).move 1 0).x < (TH.playerMk 10 6).fieldWidth ∧
      0 ≤ ((TH.playerMk 10 6).move 1 0).y ∧
      ((TH.playerMk 10 6).move 1 0).y < (TH.playerMk 10 6).fieldHeight) ∧
    (1 ≤ SD.playerInit.moveLeft.x ∧ SD.playerInit.moveLeft.x ≤ 80 - 2) :=
  ⟨(move_within_bounds (TH.playerMk 10 6) 1 0 (by decide) (by decide)
      SD.playerInit 80 (by decide)).1,
   (move_within_bounds (TH.playerMk 10 6) 1 0 (by decide) (by decide)
      SD.playerInit 80 (by decide)).2.2.1⟩

/-- If a predicate rejects every inactive object, searching the whole
store and searching only the active objects find the same result. -/
theorem find?_congr_filter (l : List TH.GameObj) (q : TH.GameObj → Bool)
    (hq : ∀ o, o.active = false → q o = false) :
    l.find? q = (l.filter (fun o => o.active)).find? q := by
  induction l with
  | nil => rfl
  | cons a rest ih =>
    by_cases ha : a.active
    · rw [List.filter_cons_of_pos (by simpa using ha)]
      by_cases hqa : q a
      · rw [List.find?_cons_of_pos _ hqa, List.find?_cons_of_pos _ hqa]
      · rw [List.find?_cons_of_neg _ (by simpa using hqa),
          List.find?_cons_of_neg _ (by simpa using hqa), ih]
    · have hqa : q a = false := hq a (by simpa using ha)
      rw [List.filter_cons_of_neg (by simpa using ha),
        List.find?_cons_of_neg _ (by simp [hqa]), ih]

/-- C8: an inactive entity is never drawn and never matched by a
collision check. In treasure hunter both getObjectAt and the cell
renderer behave as if the store held only the active objects; in space
defender an inactive enemy or bullet emits no glyph, an inactive enemy
or bullet never fires the bullet-enemy collision branch, and the
player-enemy collision check is false for an inactive enemy. -/
theorem inactive_excluded (f : TH.GameField) (x y px py : Int)
    (e : SD.Enemy) (b : SD.Bullet) (b2 : SD.Bullet) (e2 : SD.Enemy)
    (p : SD.Player) (g : SD.GameManager)
    (he : e.active = false) (hb : b.active = false) :
    TH.getObjectAt f x y =
      TH.getObjectAt { f with objects := f.objects.filter (fun o => o.active) } x y ∧
    TH.drawCell f px py x y =
      TH.drawCell { f with objects := f.objects.filter (fun o => o.active) } px py x y ∧
    e.draw = none ∧
    b.draw = none ∧
    SD.collideBulletEnemy b2 e g = (b2, e, g) ∧
    SD.collideBulletEnemy b e2 g = (b, e2, g) ∧
    SD.checkCollision p e = false := by
  refine ⟨?_, ?_, ?_, ?_, ?_, ?_, ?_⟩
  · exact find?_congr_filter f.objects _ (fun o h => by simp [h])
  · simp only [TH.drawCell]
    rw [find?_congr_filter f.objects (fun o => o.active && (o.x == x && o.y == y))
      (fun o h => by simp [h])]
  · simp [SD.Enemy.draw, he]
  · simp [SD.Bullet.draw, hb]
  · simp [SD.collideBulletEnemy, he]
  · simp [SD.collideBulletEnemy, hb]
  · simp [SD.checkCollision, he]

/-- Witness for inactive_excluded on a concrete store and entities. -/
theorem inactive_excluded_witness :
    TH.getObjectAt ⟨2, 2, [{ x := 0, y := 0, symbol := 'T', active := false }]⟩ 0 0 =
      TH.getObjectAt { TH.GameField.mk 2 2 [{ x := 0, y := 0, symbol := 'T', active := false }] with
        objects := ([{ x := 0, y := 0, symbol := 'T', active := false }] : List TH.GameObj).filter
          (fun o => o.active) } 0 0 ∧
    SD.Enemy.draw ⟨SD.EnemyKind.Fast, 3, 4, 'F', false, 0, 2⟩ = none ∧
    SD.checkCollision SD.playerInit ⟨SD.EnemyKind.Fast, 3, 4, 'F', false, 0, 2⟩ = false := by
  have h := inactive_excluded ⟨2, 2, [{ x := 0, y := 0, symbol := 'T', active := false }]⟩
    0 0 1 1 ⟨SD.EnemyKind.Fast, 3, 4, 'F', false, 0, 2⟩ ⟨3, 4, '|', false⟩
    ⟨3, 4, '|', true⟩ ⟨SD.EnemyKind.Tough, 3, 4, 'T', true, 2, 1⟩
    SD.playerInit SD.GameManager.init (by decide) (by decide)
  exact ⟨h.1, h.2.2.1, h.2.2.2.2.2.2⟩

/-- The rejection-sampling loop of addTrap consumes at most
attempts + fuel + 1 draws, always advances the attempts counter, and
whenever it stops before exhausting its budget the cell it returns holds
no active object. -/
theorem addTrapLoop_bounds (f : TH.GameField) (draws : Nat → Int × Int) :
    ∀ fuel attempts,
      attempts < (TH.addTrapLoop f draws attempts fuel).2 ∧
      (TH.addTrapLoop f draws attempts fuel).2 ≤ attempts + fuel + 1 ∧
      ((TH.addTrapLoop f draws attempts fuel).2 ≤ attempts + fuel →
        TH.getObjectAt f (TH.addTrapLoop f draws attempts fuel).1.1
          (TH.addTrapLoop f draws attempts fuel).1.2 = none) := by
  intro fuel
  induction fuel with
  | zero =>
    intro attempts
    refine ⟨by simp [TH.addTrapLoop], by simp [TH.addTrapLoop], ?_⟩
    intro hle
    exfalso
    simp [TH.addTrapLoop] at hle
  | succ fuel ih =>
    intro attempts
    by_cases hocc : (TH.getObjectAt f (draws attempts).1 (draws attempts).2).isSome = true
    · have heq : TH.addTrapLoop f draws attempts (fuel + 1) =
        TH.addTrapLoop f draws (attempts + 1) fuel := by
        simp [TH.addTrapLoop, hocc]
      rw [heq]
      obtain ⟨h1, h2, h3⟩ := ih (attempts + 1)
      exact ⟨by omega, by omega, fun hle => h3 (by omega)⟩
    · have heq : TH.addTrapLoop f draws attempts (fuel + 1) =
        (draws attempts, attempts + 1) := by
        simp [TH.addTrapLoop, hocc]
      rw [heq]
      refine ⟨by omega, by omega, fun _ => ?_⟩
      exact Option.not_isSome_iff_eq_none.mp hocc

/-- When the rejection-sampling loop exhausts its whole budget, every
draw it consulted before the final one found an occupied cell. -/
theorem addTrapLoop_exhausted (f : TH.GameField) (draws : Nat → Int × Int) :
    ∀ fuel attempts,
      (TH.addTrapLoop f draws attempts fuel).2 = attempts + fuel + 1 →
      ∀ i, attempts ≤ i → i < attempts + fuel →
        (TH.getObjectAt f (draws i).1 (draws i).2).isSome = true := by
  intro fuel
  induction fuel with
  | zero => intro attempts _ i h1 h2; omega
  | succ fuel ih =>
    intro attempts hfull i h1 h2
    by_cases hocc : (TH.getObjectAt f (draws attempts).1 (draws attempts).2).isSome = true
    · have heq : TH.addTrapLoop f draws attempts (fuel + 1) =
        TH.addTrapLoop f draws (attempts + 1) fuel := by
        simp [TH.addTrapLoop, hocc]
      rcases Nat.eq_or_lt_of_le h1 with hcase | hcase
      · exact hcase ▸ hocc
      · rw [heq] at hfull
        exact ih (attempts + 1) (by omega) i (by omega) (by omega)
    · exfalso
      have heq : TH.addTrapLoop f draws attempts (fuel + 1) =
        (draws attempts, attempts + 1) := by
        simp [TH.addTrapLoop, hocc]
      rw [heq] at hfull
      have hfull2 : attempts + 1 = attempts + (fuel + 1) + 1 := hfull
      omega

/-- C4 (amended): on a treasure collection the trap respawn makes at most
50 draws and terminates, never places the new trap on a cell holding an
active object, and skips placement exactly when the loop used its full
budget of 50 draws, which is forced whenever the first 49 draws all found
occupied cells; the 50th draw is then discarded even if it found a free
cell. -/
theorem addTrap_behavior (f : TH.GameField) (draws : Nat → Int × Int) :
    (TH.addTrapLoop f draws 0 49).2 ≤ 50 ∧
    ((TH.addTrapLoop f draws 0 49).2 < 50 →
      TH.getObjectAt f (TH.addTrapLoop f draws 0 49).1.1
        (TH.addTrapLoop f draws 0 49).1.2 = none ∧
      TH.addTrap f draws =
        { f with objects := f.objects ++
            [{ x := (TH.addTrapLoop f draws 0 49).1.1,
               y := (TH.addTrapLoop f draws 0 49).1.2,
               symbol := 'X', active := true }] }) ∧
    ((TH.addTrapLoop f draws 0 49).2 = 50 →
      TH.addTrap f draws = f ∧
      ∀ i, i < 49 → (TH.getObjectAt f (draws i).1 (draws i).2).isSome = true) := by
  obtain ⟨h1, h2, h3⟩ := addTrapLoop_bounds f draws 49 0
  refine ⟨by omega, ?_, ?_⟩
  · intro hlt
    refine ⟨h3 (by omega), ?_⟩
    simp only [TH.addTrap]
    rw [if_pos hlt]
  · intro hfull
    constructor
    · simp only [TH.addTrap]
      rw [if_neg (by omega)]
    · intro i hi
      exact addTrapLoop_exhausted f draws 49 0 hfull i (Nat.zero_le i) (by omega)

/-- Witness for addTrap_behavior: on an empty 1 x 1 board the first draw
is free and the trap is placed there. -/
theorem addTrap_behavior_witness :
    TH.addTrap ⟨1, 1, []⟩ (fun _ => ((0 : Int), (0 : Int))) =
      ⟨1, 1, [{ x := 0, y := 0, symbol := 'X', active := true }]⟩ := by
  have h := (addTrap_behavior ⟨1, 1, []⟩ (fun _ => ((0 : Int), (0 : Int)))).2.1 (by decide)
  exact h.2.trans (by decide)

/-- C4 counterexample: on a 1 x 2 board whose cell (0, 0) is occupied,
with a draw stream whose first 49 draws hit (0, 0) and whose 50th draw
hits the free cell (0, 1), addTrap places nothing although not every
attempt found an occupied cell (the 50th found a free one). -/
theorem addTrap_skip_cex :
    TH.getObjectAt ⟨1, 2, [{ x := 0, y := 0, symbol := 'T', active := true }]⟩ 0 1 = none ∧
    (fun i => if i < 49 then ((0 : Int), (0 : Int)) else ((0 : Int), (1 : Int))) 49 =
      ((0 : Int), (1 : Int)) ∧
    TH.addTrap ⟨1, 2, [{ x := 0, y := 0, symbol := 'T', active := true }]⟩
      (fun i => if i < 49 then ((0 : Int), (0 : Int)) else ((0 : Int), (1 : Int))) =
      ⟨1, 2, [{ x := 0, y := 0, symbol := 'T', active := true }]⟩ := by
  refine ⟨by decide, by decide, by decide⟩

/-- C1 (amended): when an active bullet occupies the same cell as an
active enemy the bullet is deactivated; a tough enemy has its health
counter decremented and is deactivated with the enemy-hit event (+10
score) exactly when the counter reaches zero; a basic (fast) enemy is
deactivated by the single hit but raises no enemy-hit event and adds no
score. -/
theorem bullet_enemy_hit (b : SD.Bullet) (e : SD.Enemy) (g : SD.GameManager)
    (hb : b.active = true) (he : e.active = true)
    (hx : e.x = b.x) (hy : e.y = b.y) :
    (SD.collideBulletEnemy b e g).1.active = false ∧
    (e.kind = SD.EnemyKind.Fast →
      (SD.collideBulletEnemy b e g).2.1.active = false ∧
      (SD.collideBulletEnemy b e g).2.2 = g) ∧
    (e.kind = SD.EnemyKind.Tough →
      (SD.collideBulletEnemy b e g).2.1.health = e.health - 1 ∧
      (e.health ≤ 1 →
        (SD.collideBulletEnemy b e g).2.1.active = false ∧
        (SD.collideBulletEnemy b e g).2.2 = { g with score := g.score + 10 }) ∧
      (1 < e.health →
        (SD.collideBulletEnemy b e g).2.1.active = true ∧
        (SD.collideBulletEnemy b e g).2.2 = g)) := by
  have hcond : (e.active && b.active && (e.x == b.x && e.y == b.y)) = true := by
    simp [hb, he, hx, hy]
  refine ⟨?_, ?_, ?_⟩
  · simp [SD.collideBulletEnemy, hcond]
  · intro hk
    simp [SD.collideBulletEnemy, hcond, SD.Enemy.setActive, hk]
  · intro hk
    refine ⟨?_, ?_, ?_⟩
    · simp only [SD.collideBulletEnemy, hcond, if_true, SD.Enemy.setActive, hk]
      split_ifs <;> simp_all
    · intro hh
      simp only [SD.collideBulletEnemy, hcond, if_true, SD.Enemy.setActive, hk]
      rw [if_neg (by simp)]
      rw [if_pos (by omega)]
      simp [SD.GameManager.onNotify, SD.GameManager.addScore]
    · intro hh
      simp only [SD.collideBulletEnemy, hcond, if_true, SD.Enemy.setActive, hk]
      rw [if_neg (by simp)]
      rw [if_neg (by omega)]
      simp [he]

/-- Witness for bullet_enemy_hit: a tough enemy at full health hit by a
bullet on its cell loses one health, stays active and yields no score. -/
theorem bullet_enemy_hit_witness :
    (SD.collideBulletEnemy ⟨5, 5, '|', true⟩
      ⟨SD.EnemyKind.Tough, 5, 5, 'T', true, 2, 1⟩ SD.GameManager.init).2.1.active = true ∧
    (SD.collideBulletEnemy ⟨5, 5, '|', true⟩
      ⟨SD.EnemyKind.Tough, 5, 5, 'T', true, 2, 1⟩ SD.GameManager.init).2.2 =
      SD.GameManager.init :=
  ((bullet_enemy_hit ⟨5, 5, '|', true⟩ ⟨SD.EnemyKind.Tough, 5, 5, 'T', true, 2, 1⟩
      SD.GameManager.init (by decide) (by decide) (by decide) (by decide)).2.2
    (by decide)).2.2 (by decide)

/-- C1 counterexample: a fast enemy and an active bullet on the same
cell. The collision deactivates the enemy (a kill) but the manager score
stays 0 instead of gaining the claimed 10 points, because
GameObject::setActive raises no event for a FastEnemy. -/
theorem bullet_enemy_hit_cex :
    (SD.collideBulletEnemy ⟨5, 5, '|', true⟩
      ⟨SD.EnemyKind.Fast, 5, 5, 'F', true, 0, 2⟩ SD.GameManager.init).2.1.active = false ∧
    (SD.collideBulletEnemy ⟨5, 5, '|', true⟩
      ⟨SD.EnemyKind.Fast, 5, 5, 'F', true, 0, 2⟩ SD.GameManager.init).2.2.score = 0 ∧
    ¬ (SD.collideBulletEnemy ⟨5, 5, '|', true⟩
      ⟨SD.EnemyKind.Fast, 5, 5, 'F', true, 0, 2⟩ SD.GameManager.init).2.2.score =
        SD.GameManager.init.score + 10 := by
  refine ⟨by decide, by decide, by decide⟩

/-- The exact trajectory of a fresh tough enemy under guarded hits:
untouched at 0 hits, at health 1 and still active after 1 hit, inactive
with exactly one EnemyHit event raised from the 2nd hit on. -/
theorem hitsFrom_tough (x : Int) (n : Nat) :
    SD.hitsFrom (SD.ToughEnemy x) n =
      if n = 0 then (SD.ToughEnemy x, [])
      else if n = 1 then ({ SD.ToughEnemy x with health := 1 }, [])
      else ({ SD.ToughEnemy x with health := 0, active := false },
        [SD.EventType.EnemyHit]) := by
  induction n with
  | zero => rfl
  | succ n ih =>
    have hstep : SD.hitsFrom (SD.ToughEnemy x) (n + 1) =
        (let r := SD.hitsFrom (SD.ToughEnemy x) n
         if r.1.active then
           let s := r.1.setActive false
           (s.1, r.2 ++ s.2)
         else r) := rfl
    rw [hstep, ih]
    by_cases h0 : n = 0
    · subst h0
      norm_num [SD.ToughEnemy, SD.Enemy.setActive]
    by_cases h1 : n = 1
    · subst h1
      norm_num [SD.ToughEnemy, SD.Enemy.setActive]
    · have hn0 : ¬ n + 1 = 0 := by omega
      have hn1 : ¬ n + 1 = 1 := by omega
      simp only [if_neg h0, if_neg h1, if_neg hn0, if_neg hn1]
      norm_num [SD.ToughEnemy]

/-- C3: a tough enemy under the guarded hits of the main loop is inactive
exactly from its second hit on, and the enemy-hit event is raised exactly
once over its lifetime (on the second hit), never twice. -/
theorem tough_two_hits (x : Int) (n : Nat) :
    ((SD.hitsFrom (SD.ToughEnemy x) n).1.active = false ↔ 2 ≤ n) ∧
    (SD.hitsFrom (SD.ToughEnemy x) n).2 =
      (if 2 ≤ n then [SD.EventType.EnemyHit] else []) := by
  rw [hitsFrom_tough]
  by_cases h0 : n = 0
  · subst h0
    simp [SD.ToughEnemy]
  by_cases h1 : n = 1
  · subst h1
    simp [SD.ToughEnemy]
  · have h2 : 2 ≤ n := by omega
    simp [h0, h1, h2, SD.ToughEnemy]

/-- C5 (amended): treasure hunter handles every command letter
case-insensitively, while space defender recognizes only the lowercase
commands; the uppercase form of a space defender command changes
nothing. -/
theorem command_case_handling (p : TH.Player) (g : TH.GameManager)
    (q : SD.Player) (m : SD.GameManager) :
    (∀ lu : Char × Char,
      lu ∈ ([('w', 'W'), ('s', 'S'), ('a', 'A'), ('d', 'D'), ('q', 'Q')] :
          List (Char × Char)) →
      TH.inputStep p g lu.2 = TH.inputStep p g lu.1) ∧
    (∀ lu : Char × Char,
      lu ∈ ([('a', 'A'), ('d', 'D'), ('f', 'F'), ('q', 'Q')] :
          List (Char × Char)) →
      SD.inputStep q m lu.2 = (q, m)) := by
  constructor
  · intro lu hlu
    fin_cases hlu <;> rfl
  · intro lu hlu
    fin_cases hlu <;> rfl

/-- Witness for command_case_handling at the initial players. -/
theorem command_case_handling_witness :
    TH.inputStep (TH.playerMk 10 6) TH.GameManager.init 'W' =
      TH.inputStep (TH.playerMk 10 6) TH.GameManager.init 'w' ∧
    SD.inputStep SD.playerInit SD.GameManager.init 'A' =
      (SD.playerInit, SD.GameManager.init) :=
  ⟨(command_case_handling (TH.playerMk 10 6) TH.GameManager.init
      SD.playerInit SD.GameManager.init).1 ('w', 'W') (by decide),
   (command_case_handling (TH.playerMk 10 6) TH.GameManager.init
      SD.playerInit SD.GameManager.init).2 ('a', 'A') (by decide)⟩

/-- C5 counterexample: in space defender the lowercase command a moves
the player left while its uppercase form A changes nothing, so upper and
lower case do not produce the same state change. -/
theorem command_case_handling_cex :
    (SD.inputStep SD.playerInit SD.GameManager.init 'a').1.x = 39 ∧
    (SD.inputStep SD.playerInit SD.GameManager.init 'A').1.x = 40 ∧
    SD.inputStep SD.playerInit SD.GameManager.init 'A' ≠
      SD.inputStep SD.playerInit SD.GameManager.init 'a' := by
  refine ⟨by decide, by decide, by decide⟩

/-- C6 (amended): in treasure hunter an unrecognized command prints the
invalid-command message and skips the tick, leaving player and manager
unchanged; in space defender an unrecognized key is silently ignored by
the input switch (player and manager unchanged, no message exists) but
the tick is not skipped: it proceeds exactly as a tick with no key at
all, so entities still advance. -/
theorem invalid_command (p : TH.Player) (g : TH.GameManager)
    (q : SD.Player) (m : SD.GameManager) (s : SD.State) (c : Char)
    (hth : c ∉ (['w', 'W', 's', 'S', 'a', 'A', 'd', 'D', 'q', 'Q'] : List Char))
    (hsd : c ∉ (['a', 'd', 'f', 'q'] : List Char)) :
    TH.inputStep p g c = ⟨p, g, true, true⟩ ∧
    SD.inputStep q m c = (q, m) ∧
    SD.tick s (some c) = SD.tick s none := by
  simp only [List.mem_cons, List.not_mem_nil, or_false, not_or] at hth hsd
  obtain ⟨hw, hW, hs, hS, ha, hA, hd, hD, hq, hQ⟩ := hth
  obtain ⟨ha2, hd2, hf2, hq2⟩ := hsd
  have hsdstep : ∀ (q2 : SD.Player) (m2 : SD.GameManager),
      SD.inputStep q2 m2 c = (q2, m2) := by
    intro q2 m2
    simp [SD.inputStep, ha2, hd2, hf2, hq2]
  refine ⟨?_, hsdstep q m, ?_⟩
  · simp [TH.inputStep, hw, hW, hs, hS, ha, hA, hd, hD, hq, hQ]
  · simp only [SD.tick, hsdstep]

/-- Witness for invalid_command at the key z on concrete states. -/
theorem invalid_command_witness :
    TH.inputStep (TH.playerMk 10 6) TH.GameManager.init 'z' =
      ⟨TH.playerMk 10 6, TH.GameManager.init, true, true⟩ ∧
    SD.tick ⟨SD.playerInit, [], SD.GameManager.init⟩ (some 'z') =
      SD.tick ⟨SD.playerInit, [], SD.GameManager.init⟩ none :=
  ⟨(invalid_command (TH.playerMk 10 6) TH.GameManager.init SD.playerInit
      SD.GameManager.init ⟨SD.playerInit, [], SD.GameManager.init⟩ 'z'
      (by decide) (by decide)).1,
   (invalid_command (TH.playerMk 10 6) TH.GameManager.init SD.playerInit
      SD.GameManager.init ⟨SD.playerInit, [], SD.GameManager.init⟩ 'z'
      (by decide) (by decide)).2.2⟩

/-- C6 counterexample: in space defender the unrecognized key z does not
skip the tick: with one active fast enemy on the field, the tick after
pressing z still moves the enemy, so the game state is not left
unchanged. -/
theorem invalid_command_cex :
    SD.tick ⟨SD.playerInit,
        [⟨SD.EnemyKind.Fast, 5, 5, 'F', true, 0, 2⟩],
        SD.GameManager.init⟩ (some 'z') ≠
      ⟨SD.playerInit,
        [⟨SD.EnemyKind.Fast, 5, 5, 'F', true, 0, 2⟩],
        SD.GameManager.init⟩ := by
  decide

/-- C10: the occupancy check of the trap respawn consults only active
objects and not the player, so the new trap can land on the cell the
player occupies: from the start state of a 10 x 6 field holding one
treasure at (6, 3), moving right collects the treasure and a draw stream
hitting (6, 3) places the new trap exactly on the player cell. -/
theorem trap_on_player_cell :
    ((TH.tick ⟨TH.GameManager.init, TH.playerMk 10 6,
        ⟨10, 6, [{ x := 6, y := 3, symbol := 'T', active := true }]⟩⟩
        'd' (fun _ => ((6 : Int), (3 : Int)))).player.x = 6 ∧
      (TH.tick ⟨TH.GameManager.init, TH.playerMk 10 6,
        ⟨10, 6, [{ x := 6, y := 3, symbol := 'T', active := true }]⟩⟩
        'd' (fun _ => ((6 : Int), (3 : Int)))).player.y = 3) ∧
    TH.getObjectAt (TH.tick ⟨TH.GameManager.init, TH.playerMk 10 6,
        ⟨10, 6, [{ x := 6, y := 3, symbol := 'T', active := true }]⟩⟩
        'd' (fun _ => ((6 : Int), (3 : Int)))).field 6 3 =
      some { x := 6, y := 3, symbol := 'X', active := true } ∧
    (TH.tick ⟨TH.GameManager.init, TH.playerMk 10 6,
        ⟨10, 6, [{ x := 6, y := 3, symbol := 'T', active := true }]⟩⟩
        'd' (fun _ => ((6 : Int), (3 : Int)))).manager.score = 1 := by
  refine ⟨⟨by decide, by decide⟩, by decide, by decide⟩
